import Mathlib

/-!
Verification of the core of the rs-compiler front end: the static type
model (`src/typings/mod.rs`) and the AST formatter (`src/ast/printer.rs`).

The Rust sources are embedded shallowly:

* `Type` (here `Ty`, since `Type` is reserved in Lean) with its
  `Display` rendering, `is_assignable_to` and `from_str`.
* The formatter `ASTPrinter` with its helper methods and every
  `ASTVisitor` method it implements.  The accumulated `result` string is
  modelled as a Lean `String`; the termion colour escapes pushed by the
  helpers are modelled as the exact escape-sequence strings termion
  produces (`ESC [38;5;<n>m`, reset `ESC [39m`).
* The tree owner (`Ast`, `src/ast/mod.rs`) and the dispatching default
  visitor (`src/ast/visitor.rs`) are not among the sources.  Modelled
  from the spec: the spec fixes the closed set of expression and
  statement shapes, requires every node identifier to resolve to a live
  node of the owning tables, and fixes the dispatch order, so node
  references (`ExprId`/`StmtId`) are modelled as the resolved subtrees
  themselves, and `visit_expression`/`visit_statement` perform the
  shape dispatch directly.  The statement shapes modelled are the ones
  the printer handles: expression statements, `return`, and `while`.
* Rust's `&mut Ast` is modelled by threading the visited node through
  every visitor function and returning it next to the printer state, so
  that "the formatter never mutates the tree" is a provable statement
  rather than a typing accident.
-/

namespace RsCompiler

/-! ## Type model (src/typings/mod.rs) -/

/-- Index into the compilation unit's function table (`FunctionIdx`). -/
abbrev FunctionIdx := Nat

/-- The closed set of type tags (`Type` in `src/typings/mod.rs`). -/
inductive Ty where
  | int
  | bool
  | void
  | function (idx : FunctionIdx)
  | unresolved
  | error
deriving DecidableEq

/-- The `Display` impl for `Type`: a fixed one-word rendering per tag. -/
def Ty.display : Ty → String
  | .int => "int"
  | .bool => "bool"
  | .unresolved => "unresolved"
  | .void => "void"
  | .function _ => "function"
  | .error => "?"

/-- `Type::is_assignable_to`, with the match arms in source order. -/
def Ty.is_assignable_to (self other : Ty) : Bool :=
  match self, other with
  | .int, .int => true
  | .bool, .bool => true
  | .error, _ => true
  | _, .error => true
  | _, _ => false

/-- `Type::from_str`. -/
def Ty.from_str (s : String) : Option Ty :=
  match s with
  | "int" => some .int
  | "bool" => some .bool
  | "void" => some .void
  | _ => none

/-! ## Text spans, tokens and declarations used by the printer -/

/-- A span of source text; the printer only reads its `literal`. -/
structure TextSpan where
  literal : String
deriving DecidableEq

/-- A token; the printer only reads `token.span.literal`. -/
structure Token where
  span : TextSpan
deriving DecidableEq

/-- Unary operator payload (`unary_expression.operator.token`). -/
structure UnaryOperator where
  token : Token
deriving DecidableEq

/-- Binary operator payload (`binary_expression.operator.token`). -/
structure BinaryOperator where
  token : Token
deriving DecidableEq

/-- `StaticTypeAnnotation` in the source (shortened name): carries the
token whose span holds the literal source spelling of the type. -/
structure StaticTypeAnn where
  type_name : Token
deriving DecidableEq

/-- One `func` parameter: identifier token plus its type annotation
(source field name `type_aannotation`, shortened here). -/
structure FuncDeclParameter where
  identifier : Token
  type_ann : StaticTypeAnn
deriving DecidableEq

/-! ## The AST shapes

Modelled from the spec: the closed union of expression and statement
shapes of section 3, with node identifiers replaced by the subtrees they
resolve to (the spec's no-dangling-identifier invariant).  List-valued
children use explicit spine types so that all visitor recursion is
structural. -/

mutual
/-- Expression shapes (constructor names follow the source; `var`,
`ifE`, `recE` stand for the reserved words). -/
inductive Expr where
  | number (number : Int)
  | boolean (value : Bool)
  | var (identifier : Token)
  | unary (operator : UnaryOperator) (operand : Expr)
  | binary (operator : BinaryOperator) (left : Expr) (right : Expr)
  | parenthesized (expression : Expr)
  | assignment (identifier : Token) (expression : Expr)
  | call (callee : Expr) (arguements : ExprList)
  | block (stmts : StmtList)
  | ifE (condition : Expr) (then_branch : Expr) (else_branch : Option Expr)
  | func (parameters : List FuncDeclParameter) (body : Expr)
  | recE
  | error (span : TextSpan)

/-- Spine of an argument list. -/
inductive ExprList where
  | nil
  | cons (head : Expr) (tail : ExprList)

/-- Statement shapes handled by the printer (`ret`, `whileS` stand for
the reserved words). -/
inductive Stmt where
  | expression (expr : Expr)
  | ret (return_value : Option Expr)
  | whileS (condition : Expr) (body : Expr)

/-- Spine of a block's statement list. -/
inductive StmtList where
  | nil
  | cons (head : Stmt) (tail : StmtList)
end

/-! ## The formatter state and helper methods (src/ast/printer.rs) -/

/-- The formatter: indentation depth plus the accumulated output. -/
structure ASTPrinter where
  indent : Nat
  result : String
deriving DecidableEq

/-- A termion foreground escape for ANSI colour `code`. -/
def fgEscape (code : Nat) : String :=
  String.mk [Char.ofNat 27] ++ "[38;5;" ++ toString code ++ "m"

/-- `Self::NUMBER_COLOR` (termion Cyan). -/
def NUMBER_COLOR : String := fgEscape 6

/-- `Self::TEXT_COLOR` (termion LightWhite). -/
def TEXT_COLOR : String := fgEscape 15

/-- `Self::KEYWORD_COLOR` (termion Magenta). -/
def KEYWORD_COLOR : String := fgEscape 5

/-- `Self::VARIABLE_COLOR` (termion Green). -/
def VARIABLE_COLOR : String := fgEscape 2

/-- `Self::BOOLEAN_COLOR` (termion Yellow). -/
def BOOLEAN_COLOR : String := fgEscape 3

/-- `Self::TYPE_COLOR` (termion LightBlue). -/
def TYPE_COLOR : String := fgEscape 12

/-- `Fg(Reset)` as pushed at the end of every statement line. -/
def FG_RESET : String := String.mk [Char.ofNat 27] ++ "[39m"

/-- `add_whitespace`: pushes a single space. -/
def ASTPrinter.add_whitespace (self : ASTPrinter) : ASTPrinter :=
  { self with result := self.result ++ " " }

/-- `add_newline`: pushes the source's multi-line string literal, which
is a newline followed by eight literal spaces. -/
def ASTPrinter.add_newline (self : ASTPrinter) : ASTPrinter :=
  { self with result := self.result ++ "\n        " }

/-- `add_keyword`: keyword colour marker, then the keyword. -/
def ASTPrinter.add_keyword (self : ASTPrinter) (keyword : String) : ASTPrinter :=
  { self with result := self.result ++ (KEYWORD_COLOR ++ keyword) }

/-- `add_text`: text colour marker, then the text. -/
def ASTPrinter.add_text (self : ASTPrinter) (text : String) : ASTPrinter :=
  { self with result := self.result ++ (TEXT_COLOR ++ text) }

/-- `add_variable`: variable colour marker, then the identifier. -/
def ASTPrinter.add_variable (self : ASTPrinter) (variable_ : String) : ASTPrinter :=
  { self with result := self.result ++ (VARIABLE_COLOR ++ variable_) }

/-- `add_padding`: one space per current indentation unit. -/
def ASTPrinter.add_padding (self : ASTPrinter) : ASTPrinter :=
  { self with result := self.result ++ String.mk (List.replicate self.indent ' ') }

/-- `add_boolean`: boolean colour marker, then `true`/`false`. -/
def ASTPrinter.add_boolean (self : ASTPrinter) (boolean : Bool) : ASTPrinter :=
  { self with result := self.result ++ (BOOLEAN_COLOR ++ toString boolean) }

/-- `add_type`: type colour marker, then the type literal. -/
def ASTPrinter.add_type (self : ASTPrinter) (type_ : String) : ASTPrinter :=
  { self with result := self.result ++ (TYPE_COLOR ++ type_) }

/-- `add_type_annotation` in the source (shortened name): `:`, a space,
then the literal source spelling of the annotated type. -/
def ASTPrinter.add_type_ann (self : ASTPrinter) (ta : StaticTypeAnn) : ASTPrinter :=
  ((self.add_text ":").add_whitespace).add_type ta.type_name.span.literal

/-- `ASTPrinter::new`. -/
def ASTPrinter.new : ASTPrinter :=
  { indent := 0, result := "" }

/-- The parameter loop inside `visit_func_expr`: comma-space before every
parameter but the first, then identifier and type annotation. -/
def visit_func_parameters (p : ASTPrinter) (i : Nat) :
    List FuncDeclParameter → ASTPrinter
  | [] => p
  | param :: rest =>
      let p := if i != 0 then (p.add_text ",").add_whitespace else p
      let p := p.add_text param.identifier.span.literal
      let p := p.add_type_ann param.type_ann
      visit_func_parameters p (i + 1) rest

/-! ## The visitor methods of the formatter

Each function takes the printer state and the node being visited and
returns both, mirroring the `(&mut self, &mut Ast)` signatures of the
source: returning the node models the mutable access the method has to
the tree.  `visit_expression`/`visit_statement` fold the shape dispatch
of the default visitor (modelled from the spec, section 4.2) together
with the per-shape printer methods. -/

mutual
/-- `visit_expression`: dispatch on the expression shape and run the
printer's per-shape method. -/
def visit_expression (p : ASTPrinter) (e : Expr) : ASTPrinter × Expr :=
  match e with
  | .number number =>
      ({ p with result := p.result ++ (NUMBER_COLOR ++ toString number) },
       .number number)
  | .boolean value => (p.add_boolean value, .boolean value)
  | .var identifier =>
      ({ p with result := p.result ++ (VARIABLE_COLOR ++ identifier.span.literal) },
       .var identifier)
  | .unary operator operand =>
      let p := { p with result := p.result ++ (TEXT_COLOR ++ operator.token.span.literal) }
      let (p, operand) := visit_expression p operand
      (p, .unary operator operand)
  | .binary operator left right =>
      let (p, left) := visit_expression p left
      let p := p.add_whitespace
      let p := { p with result := p.result ++ (TEXT_COLOR ++ operator.token.span.literal) }
      let p := p.add_whitespace
      let (p, right) := visit_expression p right
      (p, .binary operator left right)
  | .parenthesized expression =>
      let p := { p with result := p.result ++ (TEXT_COLOR ++ "(") }
      let (p, expression) := visit_expression p expression
      let p := { p with result := p.result ++ (TEXT_COLOR ++ ")") }
      (p, .parenthesized expression)
  | .assignment identifier expression =>
      let p := p.add_variable identifier.span.literal
      let p := p.add_whitespace
      let p := p.add_text "="
      let p := p.add_whitespace
      let (p, expression) := visit_expression p expression
      (p, .assignment identifier expression)
  | .call callee arguements =>
      let (p, callee) := visit_expression p callee
      let p := p.add_text "("
      let (p, arguements) := visit_call_arguments p 0 arguements
      let p := p.add_text ")"
      (p, .call callee arguements)
  | .block stmts =>
      let p := p.add_text "\x7b"
      let p := p.add_newline
      let p := { p with indent := p.indent + 1 }
      let (p, stmts) := visit_block_statements p stmts
      let p := { p with indent := p.indent - 1 }
      let p := p.add_padding
      let p := p.add_text "\x7d"
      (p, .block stmts)
  | .ifE condition then_branch else_branch =>
      let p := p.add_keyword "if"
      let p := p.add_whitespace
      let (p, condition) := visit_expression p condition
      let p := p.add_whitespace
      let (p, then_branch) := visit_expression p then_branch
      match else_branch with
      | none => (p, .ifE condition then_branch none)
      | some eb =>
          let p := p.add_whitespace
          let p := p.add_keyword "else"
          let p := p.add_whitespace
          let (p, eb) := visit_expression p eb
          (p, .ifE condition then_branch (some eb))
  | .func parameters body =>
      let p := p.add_keyword "func"
      let p := p.add_whitespace
      let are_parameters_empty := parameters.isEmpty
      let p := if !are_parameters_empty then p.add_text "(" else p.add_whitespace
      let p := visit_func_parameters p 0 parameters
      let p := if !are_parameters_empty then (p.add_text ")").add_whitespace else p
      let (p, body) := visit_expression p body
      (p, .func parameters body)
  | .recE => (p.add_keyword "rec", .recE)
  | .error span =>
      ({ p with result := p.result ++ (TEXT_COLOR ++ span.literal) }, .error span)

/-- The argument loop inside `visit_call_expression`. -/
def visit_call_arguments (p : ASTPrinter) (i : Nat) (args : ExprList) :
    ASTPrinter × ExprList :=
  match args with
  | .nil => (p, .nil)
  | .cons argument rest =>
      let p := if i != 0 then (p.add_text ",").add_whitespace else p
      let (p, argument) := visit_expression p argument
      let (p, rest) := visit_call_arguments p (i + 1) rest
      (p, .cons argument rest)

/-- `visit_statement`: padding, shape dispatch (`do_visit_statement`),
then the reset marker and a newline. -/
def visit_statement (p : ASTPrinter) (s : Stmt) : ASTPrinter × Stmt :=
  let p := p.add_padding
  let (p, s) :=
    match s with
    | .expression expr =>
        let (p, expr) := visit_expression p expr
        (p, Stmt.expression expr)
    | .ret return_value =>
        let p := p.add_keyword "return"
        match return_value with
        | none => (p, Stmt.ret none)
        | some expression =>
            let p := p.add_whitespace
            let (p, expression) := visit_expression p expression
            (p, Stmt.ret (some expression))
    | .whileS condition body =>
        let p := p.add_keyword "while"
        let p := p.add_whitespace
        let (p, condition) := visit_expression p condition
        let p := p.add_whitespace
        let (p, body) := visit_expression p body
        (p, Stmt.whileS condition body)
  ({ p with result := p.result ++ (FG_RESET ++ "\n") }, s)

/-- The statement loop inside `visit_block_expr`. -/
def visit_block_statements (p : ASTPrinter) (ss : StmtList) :
    ASTPrinter × StmtList :=
  match ss with
  | .nil => (p, .nil)
  | .cons s rest =>
      let (p, s) := visit_statement p s
      let (p, rest) := visit_block_statements p rest
      (p, .cons s rest)
end

/-- The text a fresh traversal at indentation depth `ind` appends for an
expression: the printer's output observed from an empty accumulator. -/
def renderExpr (ind : Nat) (e : Expr) : String :=
  (visit_expression { indent := ind, result := "" } e).1.result

/-- The text a fresh traversal at indentation depth `ind` appends for a
statement. -/
def renderStmt (ind : Nat) (s : Stmt) : String :=
  (visit_statement { indent := ind, result := "" } s).1.result

/-! ## Compositional description of the same rendering

These functions restate the per-shape output of the printer without the
threaded accumulator; the `visit_expression_spec` family below proves
them equal to what the visitor appends, which is what makes every
rendering theorem compositional. -/

/-- Compositional form of the `visit_func_expr` parameter loop. -/
def paramsRendering (i : Nat) : List FuncDeclParameter → String
  | [] => ""
  | param :: rest =>
      (if i != 0 then (TEXT_COLOR ++ ",") ++ " " else "") ++
        (TEXT_COLOR ++ param.identifier.span.literal) ++
        ((TEXT_COLOR ++ ":") ++ " " ++ (TYPE_COLOR ++ param.type_ann.type_name.span.literal)) ++
        paramsRendering (i + 1) rest

mutual
/-- Compositional form of the text appended for an expression. -/
def exprRendering (ind : Nat) (e : Expr) : String :=
  match e with
  | .number number => NUMBER_COLOR ++ toString number
  | .boolean value => BOOLEAN_COLOR ++ toString value
  | .var identifier => VARIABLE_COLOR ++ identifier.span.literal
  | .unary operator operand =>
      (TEXT_COLOR ++ operator.token.span.literal) ++ exprRendering ind operand
  | .binary operator left right =>
      exprRendering ind left ++ " " ++ (TEXT_COLOR ++ operator.token.span.literal) ++
        " " ++ exprRendering ind right
  | .parenthesized expression =>
      (TEXT_COLOR ++ "(") ++ exprRendering ind expression ++ (TEXT_COLOR ++ ")")
  | .assignment identifier expression =>
      (VARIABLE_COLOR ++ identifier.span.literal) ++ " " ++ (TEXT_COLOR ++ "=") ++
        " " ++ exprRendering ind expression
  | .call callee arguements =>
      exprRendering ind callee ++ (TEXT_COLOR ++ "(") ++
        argsRendering ind 0 arguements ++ (TEXT_COLOR ++ ")")
  | .block stmts =>
      (TEXT_COLOR ++ "\x7b") ++ "\n        " ++ stmtsRendering (ind + 1) stmts ++
        String.mk (List.replicate ind ' ') ++ (TEXT_COLOR ++ "\x7d")
  | .ifE condition then_branch else_branch =>
      (KEYWORD_COLOR ++ "if") ++ " " ++ exprRendering ind condition ++ " " ++
        exprRendering ind then_branch ++
        (match else_branch with
         | none => ""
         | some eb => " " ++ (KEYWORD_COLOR ++ "else") ++ " " ++ exprRendering ind eb)
  | .func parameters body =>
      (KEYWORD_COLOR ++ "func") ++ " " ++
        (if !parameters.isEmpty then TEXT_COLOR ++ "(" else " ") ++
        paramsRendering 0 parameters ++
        (if !parameters.isEmpty then (TEXT_COLOR ++ ")") ++ " " else "") ++
        exprRendering ind body
  | .recE => KEYWORD_COLOR ++ "rec"
  | .error span => TEXT_COLOR ++ span.literal

/-- Compositional form of the `visit_call_expression` argument loop. -/
def argsRendering (ind : Nat) (i : Nat) (args : ExprList) : String :=
  match args with
  | .nil => ""
  | .cons argument rest =>
      (if i != 0 then (TEXT_COLOR ++ ",") ++ " " else "") ++
        exprRendering ind argument ++ argsRendering ind (i + 1) rest

/-- Compositional form of the text appended for a statement. -/
def stmtRendering (ind : Nat) (s : Stmt) : String :=
  String.mk (List.replicate ind ' ') ++
    (match s with
     | .expression expr => exprRendering ind expr
     | .ret none => KEYWORD_COLOR ++ "return"
     | .ret (some expression) =>
         (KEYWORD_COLOR ++ "return") ++ " " ++ exprRendering ind expression
     | .whileS condition body =>
         (KEYWORD_COLOR ++ "while") ++ " " ++ exprRendering ind condition ++ " " ++
           exprRendering ind body) ++
    (FG_RESET ++ "\n")

/-- Compositional form of the `visit_block_expr` statement loop. -/
def stmtsRendering (ind : Nat) (ss : StmtList) : String :=
  match ss with
  | .nil => ""
  | .cons s rest => stmtRendering ind s ++ stmtsRendering ind rest
end

/-! ## Plain-text view of the output

The formatter interleaves in-band style markers with literal text; a
consumer that does not support styling strips them.  A marker is an
escape character followed by characters up to and including the final
`m`, which covers every marker the printer emits. -/

/-- Marker stripping as a two-state scan: `inMarker` is true while the
characters of an escape sequence are being skipped. -/
def stripMarkersFold : List Char → Bool → List Char
  | [], _ => []
  | c :: rest, true =>
      if c = 'm' then stripMarkersFold rest false else stripMarkersFold rest true
  | c :: rest, false =>
      if c = Char.ofNat 27 then stripMarkersFold rest true
      else c :: stripMarkersFold rest false

/-- Remove every style marker from a rendered string. -/
def stripMarkers (s : String) : String :=
  String.mk (stripMarkersFold s.data false)

/-- The first output line: everything before the first newline. -/
def firstLine (s : String) : String :=
  String.mk (s.data.takeWhile (fun c => c != '\n'))

/-- Split into lines at every newline character. -/
def linesChars : List Char → List (List Char)
  | [] => [[]]
  | c :: rest =>
      let ls := linesChars rest
      if c = '\n' then [] :: ls
      else
        match ls with
        | [] => [[c]]
        | l :: ls => (c :: l) :: ls

/-- The lines of a rendered string. -/
def linesOf (s : String) : List String :=
  (linesChars s.data).map String.mk

/-- Width of the leading run of spaces of a line. -/
def leading_spaces (s : String) : Nat :=
  (s.data.takeWhile (fun c => c = ' ')).length

/-! ## Rendering of a single parameter and the separated-list views

These definitions spell out the claimed surface syntax — parameters and
arguments joined by a comma-space separator — so the claim theorems can
equate the printer's indexed loops with them. -/

/-- One parameter as the printer renders it: identifier, colon, space,
type literal (each with its style marker). -/
def paramRendered (param : FuncDeclParameter) : String :=
  (TEXT_COLOR ++ param.identifier.span.literal) ++
    ((TEXT_COLOR ++ ":") ++ " " ++ (TYPE_COLOR ++ param.type_ann.type_name.span.literal))

/-- Parameters after the first, each preceded by the comma-space
separator. -/
def paramsTailRendered : List FuncDeclParameter → String
  | [] => ""
  | param :: rest => ((TEXT_COLOR ++ ",") ++ " ") ++ paramRendered param ++ paramsTailRendered rest

/-- A full parameter list joined by the comma-space separator. -/
def paramsRendered : List FuncDeclParameter → String
  | [] => ""
  | param :: rest => paramRendered param ++ paramsTailRendered rest

/-- Call arguments after the first, each preceded by the comma-space
separator and rendered exactly as a fresh traversal renders them. -/
def argsTailRendered (ind : Nat) : ExprList → String
  | .nil => ""
  | .cons argument rest =>
      ((TEXT_COLOR ++ ",") ++ " ") ++ renderExpr ind argument ++ argsTailRendered ind rest

/-- A full call argument list joined by the comma-space separator. -/
def callArgsRendered (ind : Nat) : ExprList → String
  | .nil => ""
  | .cons argument rest => renderExpr ind argument ++ argsTailRendered ind rest

/-! ## Concrete input trees used by individual claims -/

/-- The tree for `func(x:int, y:int) { return x = y }`. -/
def exampleC4 : Expr :=
  .func [⟨⟨⟨"x"⟩⟩, ⟨⟨⟨"int"⟩⟩⟩⟩, ⟨⟨⟨"y"⟩⟩, ⟨⟨⟨"int"⟩⟩⟩⟩]
    (.block (.cons (.ret (some (.assignment ⟨⟨"x"⟩⟩ (.var ⟨⟨"y"⟩⟩)))) .nil))

/-- A block holding the single expression statement `1`. -/
def exampleC5 : Expr := .block (.cons (.expression (.number 1)) .nil)

/-- A block holding the single statement `return`. -/
def exampleC6 : Expr := .block (.cons (.ret none) .nil)

/-- The call `f(1, 2)`. -/
def exampleC8 : Expr :=
  .call (.var ⟨⟨"f"⟩⟩) (.cons (.number 1) (.cons (.number 2) .nil))

/-- A call whose first argument is an error node with raw span `@!`. -/
def exampleC9 : Expr :=
  .call (.var ⟨⟨"f"⟩⟩) (.cons (.error ⟨"@!"⟩) (.cons (.number 2) .nil))

/-! ## The visitor computes the compositional rendering

Every visitor function leaves the visited node unchanged, leaves the
indentation as it found it, and appends exactly the compositional
rendering of the node at the current depth. -/

theorem visit_func_parameters_spec :
    ∀ (params : List FuncDeclParameter) (p : ASTPrinter) (i : Nat),
      visit_func_parameters p i params =
        { p with result := p.result ++ paramsRendering i params } := by
  intro params
  induction params with
  | nil =>
      intro p i
      simp [visit_func_parameters, paramsRendering]
  | cons param rest ih =>
      intro p i
      by_cases hi : (i != 0) = true <;>
        simp [visit_func_parameters, paramsRendering, hi, ih,
          ASTPrinter.add_text, ASTPrinter.add_whitespace, ASTPrinter.add_type_ann,
          ASTPrinter.add_type, String.append_assoc]

mutual
theorem visit_expression_spec (p : ASTPrinter) (e : Expr) :
    visit_expression p e =
      ({ p with result := p.result ++ exprRendering p.indent e }, e) := by
  cases e with
  | number number => simp [visit_expression, exprRendering]
  | boolean value => simp [visit_expression, exprRendering, ASTPrinter.add_boolean]
  | var identifier => simp [visit_expression, exprRendering]
  | unary operator operand =>
      simp [visit_expression, exprRendering,
        (fun q => visit_expression_spec q operand), String.append_assoc]
  | binary operator left right =>
      simp [visit_expression, exprRendering, ASTPrinter.add_whitespace,
        (fun q => visit_expression_spec q left),
        (fun q => visit_expression_spec q right), String.append_assoc]
  | parenthesized expression =>
      simp [visit_expression, exprRendering,
        (fun q => visit_expression_spec q expression), String.append_assoc]
  | assignment identifier expression =>
      simp [visit_expression, exprRendering, ASTPrinter.add_variable,
        ASTPrinter.add_whitespace, ASTPrinter.add_text,
        (fun q => visit_expression_spec q expression), String.append_assoc]
  | call callee arguements =>
      simp [visit_expression, exprRendering, ASTPrinter.add_text,
        (fun q => visit_expression_spec q callee),
        (fun q i => visit_call_arguments_spec q i arguements), String.append_assoc]
  | block stmts =>
      simp [visit_expression, exprRendering, ASTPrinter.add_text,
        ASTPrinter.add_newline, ASTPrinter.add_padding,
        (fun q => visit_block_statements_spec q stmts), String.append_assoc]
  | ifE condition then_branch else_branch =>
      cases else_branch with
      | none =>
          simp [visit_expression, exprRendering, ASTPrinter.add_keyword,
            ASTPrinter.add_whitespace,
            (fun q => visit_expression_spec q condition),
            (fun q => visit_expression_spec q then_branch), String.append_assoc]
      | some eb =>
          simp [visit_expression, exprRendering, ASTPrinter.add_keyword,
            ASTPrinter.add_whitespace,
            (fun q => visit_expression_spec q condition),
            (fun q => visit_expression_spec q then_branch),
            (fun q => visit_expression_spec q eb), String.append_assoc]
  | func parameters body =>
      by_cases hp : parameters.isEmpty = true <;>
        simp [visit_expression, exprRendering, ASTPrinter.add_keyword,
          ASTPrinter.add_whitespace, ASTPrinter.add_text, hp,
          visit_func_parameters_spec,
          (fun q => visit_expression_spec q body), String.append_assoc]
  | recE => simp [visit_expression, exprRendering, ASTPrinter.add_keyword]
  | error span => simp [visit_expression, exprRendering]

theorem visit_call_arguments_spec (p : ASTPrinter) (i : Nat) (args : ExprList) :
    visit_call_arguments p i args =
      ({ p with result := p.result ++ argsRendering p.indent i args }, args) := by
  cases args with
  | nil => simp [visit_call_arguments, argsRendering]
  | cons argument rest =>
      by_cases hi : (i != 0) = true <;>
        simp [visit_call_arguments, argsRendering, hi, ASTPrinter.add_text,
          ASTPrinter.add_whitespace,
          (fun q => visit_expression_spec q argument),
          (fun q j => visit_call_arguments_spec q j rest), String.append_assoc]

theorem visit_statement_spec (p : ASTPrinter) (s : Stmt) :
    visit_statement p s =
      ({ p with result := p.result ++ stmtRendering p.indent s }, s) := by
  cases s with
  | expression expr =>
      simp [visit_statement, stmtRendering, ASTPrinter.add_padding,
        (fun q => visit_expression_spec q expr), String.append_assoc]
  | ret return_value =>
      cases return_value with
      | none =>
          simp [visit_statement, stmtRendering, ASTPrinter.add_padding,
            ASTPrinter.add_keyword, String.append_assoc]
      | some expression =>
          simp [visit_statement, stmtRendering, ASTPrinter.add_padding,
            ASTPrinter.add_keyword, ASTPrinter.add_whitespace,
            (fun q => visit_expression_spec q expression), String.append_assoc]
  | whileS condition body =>
      simp [visit_statement, stmtRendering, ASTPrinter.add_padding,
        ASTPrinter.add_keyword, ASTPrinter.add_whitespace,
        (fun q => visit_expression_spec q condition),
        (fun q => visit_expression_spec q body), String.append_assoc]

theorem visit_block_statements_spec (p : ASTPrinter) (ss : StmtList) :
    visit_block_statements p ss =
      ({ p with result := p.result ++ stmtsRendering p.indent ss }, ss) := by
  cases ss with
  | nil => simp [visit_block_statements, stmtsRendering]
  | cons s rest =>
      simp [visit_block_statements, stmtsRendering,
        (fun q => visit_statement_spec q s),
        (fun q => visit_block_statements_spec q rest), String.append_assoc]
end

/-- A fresh traversal appends exactly the compositional rendering. -/
theorem renderExpr_eq (ind : Nat) (e : Expr) :
    renderExpr ind e = exprRendering ind e := by
  simp [renderExpr, visit_expression_spec]

/-- A fresh statement traversal appends exactly the compositional
rendering. -/
theorem renderStmt_eq (ind : Nat) (s : Stmt) :
    renderStmt ind s = stmtRendering ind s := by
  simp [renderStmt, visit_statement_spec]

/-- From any nonzero position on, the argument loop emits the separator
in front of every argument. -/
theorem argsRendering_tail (args : ExprList) :
    ∀ ind i : Nat, argsRendering ind (i + 1) args = argsTailRendered ind args := by
  cases args with
  | nil => intro ind i; simp [argsRendering, argsTailRendered]
  | cons argument rest =>
      intro ind i
      simp [argsRendering, argsTailRendered, argsRendering_tail rest,
        renderExpr_eq, String.append_assoc]

/-- Started at position zero, the argument loop renders the first
argument bare and every further argument behind the separator. -/
theorem argsRendering_zero (ind : Nat) (args : ExprList) :
    argsRendering ind 0 args = callArgsRendered ind args := by
  cases args with
  | nil => simp [argsRendering, callArgsRendered]
  | cons argument rest =>
      simp [argsRendering, callArgsRendered, argsRendering_tail, renderExpr_eq]

/-- From any nonzero position on, the parameter loop emits the separator
in front of every parameter. -/
theorem paramsRendering_tail :
    ∀ (params : List FuncDeclParameter) (i : Nat),
      paramsRendering (i + 1) params = paramsTailRendered params := by
  intro params
  induction params with
  | nil => intro i; simp [paramsRendering, paramsTailRendered]
  | cons param rest ih =>
      intro i
      simp [paramsRendering, paramsTailRendered, paramRendered, ih, String.append_assoc]

/-- Started at position zero, the parameter loop renders the first
parameter bare and every further parameter behind the separator. -/
theorem paramsRendering_zero (params : List FuncDeclParameter) :
    paramsRendering 0 params = paramsRendered params := by
  cases params with
  | nil => simp [paramsRendering, paramsRendered]
  | cons param rest =>
      simp [paramsRendering, paramsRendered, paramRendered, paramsRendering_tail]

/-! ## The claims -/

/-- C1: `is_assignable_to` returns true exactly for Int to Int, Bool to
Bool, and any pairing in which either side is Error; every other pairing
— including Function to Function for any pair of indices and anything
involving Void or Unresolved — returns false. -/
theorem claim_C1_assignability :
    (∀ s t : Ty, Ty.is_assignable_to s t = true ↔
      (s = .int ∧ t = .int) ∨ (s = .bool ∧ t = .bool) ∨ s = .error ∨ t = .error) ∧
    (∀ i j : FunctionIdx, Ty.is_assignable_to (.function i) (.function j) = false) := by
  constructor
  · intro s t
    cases s <;> cases t <;> simp [Ty.is_assignable_to]
  · intro i j
    rfl

/-- C2: `Type::from_str` maps exactly "int", "bool" and "void" to their
tags and every other string — case variants, "function", "unresolved",
"?" included — to none. -/
theorem claim_C2_from_str :
    ∀ s : String, Ty.from_str s =
      if s = "int" then some Ty.int
      else if s = "bool" then some Ty.bool
      else if s = "void" then some Ty.void
      else none := by
  intro s
  unfold Ty.from_str
  split <;> simp_all

/-- C3: for each literal in {"int", "bool", "void"}, parsing with
`from_str` and rendering the resulting tag with `display` returns the
original literal. -/
theorem claim_C3_round_trip :
    (Ty.from_str "int").map Ty.display = some "int" ∧
    (Ty.from_str "bool").map Ty.display = some "bool" ∧
    (Ty.from_str "void").map Ty.display = some "void" :=
  ⟨rfl, rfl, rfl⟩

/-- C4, original claim refuted: on the tree for
`func(x:int, y:int) { return x = y }` the first rendered line (markers
stripped) is `func (x: int, y: int) {` — the printer writes the colon
directly after the identifier — not `func (x : int, y : int) {` as
claimed. -/
theorem claim_C4_counterexample :
    firstLine (stripMarkers (renderExpr 0 exampleC4)) = "func (x: int, y: int) \x7b" ∧
    firstLine (stripMarkers (renderExpr 0 exampleC4)) ≠ "func (x : int, y : int) \x7b" :=
  ⟨by decide, by decide⟩

/-- C4, amended: `func` keyword then a space; a non-empty parameter list
is wrapped in parentheses, parameters separated by comma-space, each
parameter rendered as identifier, colon, space, type literal (no space
before the colon); an empty list contributes a single space instead;
then the body.  The example tree's first line is
`func (x: int, y: int) {`. -/
theorem claim_C4_amended_func_rendering :
    (∀ (ind : Nat) (params : List FuncDeclParameter) (body : Expr),
      renderExpr ind (.func params body) =
        (KEYWORD_COLOR ++ "func") ++ " " ++
          (if params.isEmpty then " " ++ renderExpr ind body
           else (TEXT_COLOR ++ "(") ++ paramsRendered params ++
             (TEXT_COLOR ++ ")") ++ " " ++ renderExpr ind body)) ∧
    firstLine (stripMarkers (renderExpr 0 exampleC4)) = "func (x: int, y: int) \x7b" := by
  constructor
  · intro ind params body
    cases params with
    | nil =>
        simp [renderExpr_eq, exprRendering, paramsRendering, String.append_assoc]
        rw [show ("func  " : String) = "func " ++ " " from rfl, String.append_assoc]
    | cons param rest =>
        simp [renderExpr_eq, exprRendering, paramsRendering_zero, String.append_assoc]
  · decide

/-- C5, code bug: the first statement of a block does not start at
padding of one indent unit per nesting level; `add_newline` pushes eight
stray spaces after the newline, so at depth 1 the statement line starts
with nine spaces instead of one. -/
theorem claim_C5_indentation_code_bug :
    stripMarkers (renderExpr 0 exampleC5) = "\x7b\n         1\n\x7d" ∧
    leading_spaces ((linesOf (stripMarkers (renderExpr 0 exampleC5))).getD 1 "") = 9 ∧
    (9 : Nat) ≠ 1 * 1 :=
  ⟨by decide, by decide, by decide⟩

/-- C6, code bug: after the opening brace the printer does not emit a
bare newline; `add_newline`'s string literal carries eight trailing
spaces, so the block renders with nine spaces before `return` (eight
stray plus one of padding) instead of the claimed single padding
space. -/
theorem claim_C6_block_newline_code_bug :
    stripMarkers (renderExpr 0 exampleC6) = "\x7b\n         return\n\x7d" ∧
    stripMarkers (renderExpr 0 exampleC6) ≠ "\x7b\n return\n\x7d" :=
  ⟨by decide, by decide⟩

/-- C7: `display` is independent of the Function index payload and
renders every tag as its fixed word. -/
theorem claim_C7_display_stable :
    (∀ i j : FunctionIdx, Ty.display (.function i) = Ty.display (.function j)) ∧
    (∀ i : FunctionIdx, Ty.display (.function i) = "function") ∧
    Ty.display .int = "int" ∧ Ty.display .bool = "bool" ∧
    Ty.display .void = "void" ∧ Ty.display .unresolved = "unresolved" ∧
    Ty.display .error = "?" :=
  ⟨fun _ _ => rfl, fun _ => rfl, rfl, rfl, rfl, rfl, rfl⟩

/-- C8: a call renders as callee, `(` with no space before it, the
arguments joined by the comma-space separator, `)`; the example
`f(1, 2)` renders exactly so with markers stripped. -/
theorem claim_C8_call_rendering :
    (∀ (ind : Nat) (callee : Expr) (args : ExprList),
      renderExpr ind (.call callee args) =
        renderExpr ind callee ++ (TEXT_COLOR ++ "(") ++
          callArgsRendered ind args ++ (TEXT_COLOR ++ ")")) ∧
    stripMarkers (renderExpr 0 exampleC8) = "f(1, 2)" := by
  constructor
  · intro ind callee args
    simp [renderExpr_eq, exprRendering, argsRendering_zero, String.append_assoc]
  · decide

/-- C9: visiting an error node appends exactly the plain-text marker
followed by the node's raw span text, changes nothing else, and is total
— and traversal continues normally around it, as the concrete call with
an error argument shows. -/
theorem claim_C9_error_rendering :
    (∀ (p : ASTPrinter) (span : TextSpan),
      visit_expression p (.error span) =
        ({ p with result := p.result ++ (TEXT_COLOR ++ span.literal) }, .error span)) ∧
    stripMarkers (renderExpr 0 exampleC9) = "f(@!, 2)" := by
  constructor
  · intro p span
    simp [visit_expression]
  · decide

/-- C10: no visitor call of the formatter mutates the tree — the node
returned through the mutable reference is the node passed in — and the
printer state changes only by appending to the result string, with the
indentation counter restored. -/
theorem claim_C10_formatter_frame :
    (∀ (p : ASTPrinter) (e : Expr),
      (visit_expression p e).2 = e ∧
      (visit_expression p e).1.indent = p.indent ∧
      ∃ t, (visit_expression p e).1.result = p.result ++ t) ∧
    (∀ (p : ASTPrinter) (s : Stmt),
      (visit_statement p s).2 = s ∧
      (visit_statement p s).1.indent = p.indent ∧
      ∃ t, (visit_statement p s).1.result = p.result ++ t) := by
  constructor
  · intro p e
    rw [visit_expression_spec]
    exact ⟨rfl, rfl, ⟨exprRendering p.indent e, rfl⟩⟩
  · intro p s
    rw [visit_statement_spec]
    exact ⟨rfl, rfl, ⟨stmtRendering p.indent s, rfl⟩⟩

end RsCompiler
